import Mathlib

/-!
Verification of the point-in-time metrics pipeline of `streamlitdemo.py`
(fundalytix). The script's pandas pipeline is shallowly embedded:

* dates are `Int` day numbers (only their ordering matters);
* numeric values are `ℚ`; a pandas missing value (NaN after a left merge,
  or a failed lookup) is `Option.none`;
* `fundamentals_raw` rows are `FundRecord`, `prices_daily_raw` rows are
  `PriceObs`, `stocks` rows are `StockRow`;
* `pivot_latest_quarter` / `snapshot_at_offset` both reduce to `snapshot_at`:
  the script pre-filters `funds` to `reported_date <= ref_date` at load time
  and `snapshot_at_offset` filters to the cutoff again, so the cutoff filter
  is made explicit here.  `DataFrame.pivot` raises `ValueError` when the
  (ticker, field) index contains duplicate entries; that raised exception is
  modelled as `Option.none` for the whole snapshot;
* `sort_values("dt")` is modelled by an insertion sort on the date key;
  `get_price_on_or_before` takes the last row of the sorted filtered frame;
* the row-wise lambdas building the metric columns become `buildRow`, and the
  whole displayed table becomes `buildMetrics` (one row per `stocks` row, as
  the left merges on a unique-ticker right side preserve the row list);
* `Series.mean()` with its default NaN-skipping is `colMean`.
-/

/-- One long-format row of the `fundamentals_raw` table:
(ticker, reported_date, field, value). -/
structure FundRecord where
  ticker : String
  reported_date : Int
  field : String
  value : ℚ
deriving DecidableEq, Repr

/-- Rows whose `reported_date` is at or before the cutoff (the `lte` filter of
`load_fundamentals_upto`, and the `funds["reported_date"] <= cutoff` filter of
`snapshot_at_offset`). -/
def recordsUpTo (df : List FundRecord) (cutoff : Int) : List FundRecord :=
  df.filter (fun r => r.reported_date ≤ cutoff)

/-- A row carries its ticker's maximum `reported_date` within `df` (the
`groupby("ticker")["reported_date"].max()` + merge step keeps exactly these
rows). -/
def isLatestFor (df : List FundRecord) (r : FundRecord) : Bool :=
  (df.filter (fun s => s.ticker = r.ticker)).all
    (fun s => s.reported_date ≤ r.reported_date)

/-- The merged frame of `pivot_latest_quarter` / `snapshot_at_offset`: every
row of `df` whose date is its ticker's maximum. -/
def latestRows (df : List FundRecord) : List FundRecord :=
  df.filter (fun r => isLatestFor df r)

/-- The (index, columns) key pairs handed to `DataFrame.pivot`. -/
def snapKeys (rows : List FundRecord) : List (String × String) :=
  rows.map (fun r => (r.ticker, r.field))

/-- The wide snapshot built by `pivot_latest_quarter` (cutoff = `ref_date`,
already applied by `load_fundamentals_upto`) and `snapshot_at_offset`
(cutoff = `ref_date - offset_days`).  `DataFrame.pivot` raises when the
(ticker, field) index has duplicate entries, so the result is `none` in that
case; otherwise the kept rows determine the wide frame uniquely. -/
def snapshot_at (df : List FundRecord) (cutoff : Int) : Option (List FundRecord) :=
  let rows := latestRows (recordsUpTo df cutoff)
  if (snapKeys rows).Nodup then some rows else none

/-- Cell (ticker, field) of a pivoted snapshot; `none` both for a ticker
absent from the snapshot (NaN row after the left merge) and for a field the
ticker did not report (NaN cell of the pivot). -/
def snapLookup (snap : List FundRecord) (t f : String) : Option ℚ :=
  (snap.find? (fun r => r.ticker = t ∧ r.field = f)).map (fun r => r.value)

/-- One row of the `prices_daily_raw` table: (ticker, dt, close). -/
structure PriceObs where
  ticker : String
  dt : Int
  close : ℚ
deriving DecidableEq, Repr

/-- The `sort_values("dt")` key order. -/
def dtLe (a b : PriceObs) : Prop := a.dt ≤ b.dt

instance : DecidableRel dtLe := fun a b => Int.decLe a.dt b.dt

instance : IsTotal PriceObs dtLe := ⟨fun a b => Int.le_total a.dt b.dt⟩

instance : IsTrans PriceObs dtLe := ⟨fun _ _ _ h1 h2 => le_trans h1 h2⟩

/-- The `get_price_on_or_before` helper: restrict to the ticker, sort by `dt`,
keep rows with `dt <= target_date`, and return close and date of the last row;
`(np.nan, None)` for an empty frame is `none`. -/
def get_price_on_or_before (df : List PriceObs) (t : String) (target : Int) :
    Option (ℚ × Int) :=
  let sub := df.filter (fun r => r.ticker = t)
  let sorted := List.insertionSort dtLe sub
  let sub2 := sorted.filter (fun r => r.dt ≤ target)
  sub2.getLast?.map (fun r => (r.close, r.dt))

/-- The `pct_change_from` helper: price at `base_date` over price at
`base_date - lookback_days`, minus one, times 100; NaN (`none`) as soon as
either endpoint lookup fails. -/
def pct_change_from (df : List PriceObs) (t : String) (base_date lookback_days : Int) :
    Option ℚ :=
  match get_price_on_or_before df t base_date with
  | none => none
  | some bp =>
    match get_price_on_or_before df t (base_date - lookback_days) with
    | none => none
    | some tp => some ((bp.1 / tp.1 - 1) * 100)

/-- The `perf_cols` dictionary: column label to lookback days. -/
def perf_cols : List (String × Int) :=
  [("1M", 30), ("3M", 90), ("6M", 182), ("1Y", 365), ("5Y", 365 * 5)]

/-- The `growth` helper: NaN when either operand is NaN or the prior value is
zero, else `(cur / prev - 1) * 100`. -/
def growth (cur prev : Option ℚ) : Option ℚ :=
  match cur, prev with
  | some c, some p => if p = 0 then none else some ((c / p - 1) * 100)
  | _, _ => none

/-- The `Net Margin` lambda: `net_income / revenue * 100` when both are
present and revenue is nonzero, else NaN. -/
def net_margin (ni rev : Option ℚ) : Option ℚ :=
  match ni, rev with
  | some n, some r => if r = 0 then none else some (n / r * 100)
  | _, _ => none

/-- The `Earnings growth` lambdas: growth on net income when the current and
the prior net income are both present, otherwise growth on basic EPS for both
periods. -/
def earnings_growth (ni ni_prior eps eps_prior : Option ℚ) : Option ℚ :=
  if ni.isSome ∧ ni_prior.isSome then growth ni ni_prior
  else growth eps eps_prior

/-- The `Cash_to_Debt` lambda: `cash_on_hand / long_term_debt` when both are
present and the debt is nonzero, else NaN. -/
def cash_to_debt (cash debt : Option ℚ) : Option ℚ :=
  match cash, debt with
  | some c, some d => if d = 0 then none else some (c / d)
  | _, _ => none

/-- The `FPE (approx)` lambda: `Price / eps_basic` when both are present and
EPS is nonzero, else NaN. -/
def fpe_approx (price eps : Option ℚ) : Option ℚ :=
  match price, eps with
  | some p, some e => if e = 0 then none else some (p / e)
  | _, _ => none

/-- One row of the `stocks` registry table. -/
structure StockRow where
  ticker : String
  name : String
  sector : String
  industry : String
deriving DecidableEq, Repr

/-- One displayed row of the metrics table (the `display_cols` of `out`,
before rounding). -/
structure MetricRow where
  ticker : String
  name : String
  sector : String
  industry : String
  perf1M : Option ℚ
  perf3M : Option ℚ
  perf6M : Option ℚ
  perf1Y : Option ℚ
  perf5Y : Option ℚ
  netMargin : Option ℚ
  fpe : Option ℚ
  revGrowth1y : Option ℚ
  revGrowth5y : Option ℚ
  earnGrowth1y : Option ℚ
  earnGrowth5y : Option ℚ
  cashToDebt : Option ℚ
  price : Option ℚ
deriving DecidableEq, Repr

/-- The per-ticker column computations of the script: the `apply` lambdas over
the merged `metrics` frame, reading current fields from `funds_latest` and
prior fields from `funds_1y` / `funds_5y` (the left merges on the snapshots'
unique tickers put `none` wherever a ticker or field is absent). -/
def buildRow (prices : List PriceObs) (snapCur snap1y snap5y : List FundRecord)
    (refDate : Int) (s : StockRow) : MetricRow :=
  let cur := fun f => snapLookup snapCur s.ticker f
  let oneY := fun f => snapLookup snap1y s.ticker f
  let fiveY := fun f => snapLookup snap5y s.ticker f
  let price := (get_price_on_or_before prices s.ticker refDate).map (fun p => p.1)
  { ticker := s.ticker
    name := s.name
    sector := s.sector
    industry := s.industry
    perf1M := pct_change_from prices s.ticker refDate 30
    perf3M := pct_change_from prices s.ticker refDate 90
    perf6M := pct_change_from prices s.ticker refDate 182
    perf1Y := pct_change_from prices s.ticker refDate 365
    perf5Y := pct_change_from prices s.ticker refDate (365 * 5)
    netMargin := net_margin (cur "net_income") (cur "revenue")
    fpe := fpe_approx price (cur "eps_basic")
    revGrowth1y := growth (cur "revenue") (oneY "revenue")
    revGrowth5y := growth (cur "revenue") (fiveY "revenue")
    earnGrowth1y := earnings_growth (cur "net_income") (oneY "net_income")
      (cur "eps_basic") (oneY "eps_basic")
    earnGrowth5y := earnings_growth (cur "net_income") (fiveY "net_income")
      (cur "eps_basic") (fiveY "eps_basic")
    cashToDebt := cash_to_debt (cur "cash_on_hand") (cur "long_term_debt")
    price := price }

/-- The whole displayed table: `funds_latest`, `funds_1y`, `funds_5y` built by
the three pivots, then one `MetricRow` per `stocks` row.  `none` when any of
the three pivots raises on duplicate keys. -/
def buildMetrics (stocks : List StockRow) (funds : List FundRecord)
    (prices : List PriceObs) (refDate : Int) : Option (List MetricRow) :=
  match snapshot_at funds refDate, snapshot_at funds (refDate - 365),
      snapshot_at funds (refDate - 365 * 5) with
  | some snapCur, some snap1y, some snap5y =>
    some (stocks.map (buildRow prices snapCur snap1y snap5y refDate))
  | _, _, _ => none

/-- `Series.mean()` with pandas' default `skipna=True`: the mean of the
present values, NaN when none is present. -/
def colMean (xs : List (Option ℚ)) : Option ℚ :=
  let present := xs.filterMap id
  if present.isEmpty then none else some (present.sum / present.length)

/-- The `Avg 1Y perf %` quick-summary card: `out["1Y %"].mean()`. -/
def summary_avg_1y (rows : List MetricRow) : Option ℚ :=
  colMean (rows.map (fun r => r.perf1Y))

/-- The `Avg Net Margin %` quick-summary card: `out["Net Margin"].mean()`. -/
def summary_avg_net_margin (rows : List MetricRow) : Option ℚ :=
  colMean (rows.map (fun r => r.netMargin))

/-- Modelled from the spec: an IndexMembership record (§3).  The
UniverseResolver component is not part of `src/streamlitdemo.py` (the script
takes its universe straight from the `stocks` table); `included_end = none`
is an open-ended interval. -/
structure IndexMembership where
  index_name : String
  ticker : String
  included_start : Int
  included_end : Option Int
deriving DecidableEq, Repr

/-- Membership interval `m` covers day `d`:
`included_start ≤ d ≤ included_end`, the upper bound vacuous when the
interval is open-ended. -/
def coversDay (m : IndexMembership) (d : Int) : Bool :=
  decide (m.included_start ≤ d) && (match m.included_end with
    | none => true
    | some e => decide (d ≤ e))

/-- Modelled from the spec: `resolve(index_name, as_of_date)` of the
UniverseResolver (§4.2), absent from `src/streamlitdemo.py`: a ticker is
included iff at least one of its membership intervals for the index covers
the as-of date, and the result is deduplicated. -/
def resolve (ms : List IndexMembership) (idx : String) (d : Int) : List String :=
  ((ms.filter (fun m => m.index_name = idx ∧ coversDay m d)).map
    (fun m => m.ticker)).dedup

/-! ### Concrete inputs used by witnesses and counterexamples -/

/-- Fundamentals sample: AAA reports revenue on days 10, 20 and 200, BBB on
day 500. -/
def c1df : List FundRecord :=
  [⟨"AAA", 10, "revenue", 5⟩, ⟨"AAA", 20, "revenue", 7⟩,
   ⟨"AAA", 200, "revenue", 9⟩, ⟨"BBB", 500, "revenue", 3⟩]

/-- Snapshot of `c1df` at cutoff 100: only AAA's day-20 row qualifies as
latest. -/
def c1snap : List FundRecord := [⟨"AAA", 20, "revenue", 7⟩]

/-- Price sample: X trades on days 10 and 20, Y on day 15. -/
def c2prices : List PriceObs :=
  [⟨"X", 10, 50⟩, ⟨"X", 20, 60⟩, ⟨"Y", 15, 7⟩]

/-- Price sample for return computation: X closes at 50 on day 0 and at 60 on
day 365. -/
def c3prices : List PriceObs := [⟨"X", 0, 50⟩, ⟨"X", 365, 60⟩]

/-- Registry sample with a single ticker AAA. -/
def c7stocks : List StockRow := [⟨"AAA", "Aco", "Tech", "Software"⟩]

/-- Fundamentals sample with a single AAA revenue record on day 10. -/
def c7funds : List FundRecord := [⟨"AAA", 10, "revenue", 100⟩]

/-- Price sample with a single AAA close on day 999. -/
def c7prices : List PriceObs := [⟨"AAA", 999, 10⟩]

/-- Duplicate-key fundamentals sample: AAA carries two different revenue
values on its latest reported day 50; BBB is unaffected. -/
def c9df : List FundRecord :=
  [⟨"AAA", 50, "revenue", 1⟩, ⟨"AAA", 50, "revenue", 2⟩,
   ⟨"BBB", 50, "revenue", 3⟩]

/-! ### Helper lemmas -/

/-- Unfolding of `coversDay` into a proposition about the interval bounds. -/
theorem coversDay_iff (m : IndexMembership) (d : Int) :
    coversDay m d = true ↔ m.included_start ≤ d ∧
      (m.included_end = none ∨ ∃ e, m.included_end = some e ∧ d ≤ e) := by
  cases h : m.included_end <;> simp [coversDay, h]

/-! ### Claims -/

/-- Claim C4 (amended): `growth cur prev` is undefined exactly when `cur` is
missing, `prev` is missing, or `prev = 0` (in particular `cur = 0, prev = 0`
never yields a value); otherwise it equals `(cur / prev - 1) * 100`. -/
theorem C4_growth_undefined_iff (cur prev : Option ℚ) :
    (growth cur prev = none ↔ cur = none ∨ prev = none ∨ prev = some 0) ∧
    (∀ c p, cur = some c → prev = some p → p ≠ 0 →
      growth cur prev = some ((c / p - 1) * 100)) := by
  constructor
  · cases cur with
    | none => simp [growth]
    | some c =>
      cases prev with
      | none => simp [growth]
      | some p =>
        by_cases hp : p = 0 <;> simp [growth, hp]
  · rintro c p rfl rfl hp
    simp [growth, hp]

/-- Claim C4, counterexample to the stated value: the code returns
`(cur / prev - 1) * 100`, not the raw fraction `cur / prev - 1`:
`growth 3 2` is 50, not 1/2. -/
theorem C4_counterexample :
    growth (some 3) (some 2) = some 50 ∧ ((50 : ℚ) ≠ 3 / 2 - 1) := by
  constructor
  · simp [growth]
    norm_num
  · norm_num

/-- Claim C8 (amended): net margin is undefined exactly when net income is
missing, revenue is missing, or revenue is zero; otherwise it equals
`net_income / revenue * 100`. -/
theorem C8_net_margin_undefined_iff (ni rev : Option ℚ) :
    (net_margin ni rev = none ↔ ni = none ∨ rev = none ∨ rev = some 0) ∧
    (∀ n r, ni = some n → rev = some r → r ≠ 0 →
      net_margin ni rev = some (n / r * 100)) := by
  constructor
  · cases ni with
    | none => simp [net_margin]
    | some n =>
      cases rev with
      | none => simp [net_margin]
      | some r =>
        by_cases hr : r = 0 <;> simp [net_margin, hr]
  · rintro n r rfl rfl hr
    simp [net_margin, hr]

/-- Claim C8, counterexample to the stated value: the code computes
`net_income / revenue * 100`, not the raw ratio `net_income / revenue`:
`net_margin 1 2` is 50, not 1/2. -/
theorem C8_counterexample :
    net_margin (some 1) (some 2) = some 50 ∧ ((50 : ℚ) ≠ 1 / 2) := by
  constructor
  · simp [net_margin]
    norm_num
  · norm_num

/-- Claim C10 (amended): for a negative prior value the growth is defined and
equals `(cur / prior - 1) * 100`; with a positive current value the result is
negative (sign-inverted). -/
theorem C10_growth_negative_prior (c p : ℚ) (hp : p < 0) :
    growth (some c) (some p) = some ((c / p - 1) * 100) ∧
    (0 < c → ∀ v, growth (some c) (some p) = some v → v < 0) := by
  have hp0 : p ≠ 0 := ne_of_lt hp
  constructor
  · simp [growth, hp0]
  · intro hc v hv
    simp [growth, hp0] at hv
    have hdiv : c / p < 0 := div_neg_of_pos_of_neg hc hp
    have hneg : c / p - 1 < 0 := by linarith
    have : (c / p - 1) * 100 < 0 := mul_neg_of_neg_of_pos hneg (by norm_num)
    linarith [hv ▸ this]

/-- Claim C10, witness: at current 5 and prior -5 the growth is defined and
negative. -/
theorem C10_growth_negative_prior_witness :
    growth (some 5) (some (-5)) = some ((5 / (-5) - 1) * 100) ∧
    (0 < (5 : ℚ) → ∀ v, growth (some 5) (some (-5)) = some v → v < 0) :=
  C10_growth_negative_prior 5 (-5) (by norm_num)

/-- Claim C10, counterexample to the stated value: the computed figure is
`(cur / prior - 1) * 100 = -200`, not the raw fraction `cur / prior - 1 = -2`. -/
theorem C10_counterexample :
    growth (some 5) (some (-5)) = some (-200) ∧ ((-200 : ℚ) ≠ 5 / (-5) - 1) := by
  constructor
  · simp [growth]
    norm_num
  · norm_num

/-- Claim C5: each earnings-growth column uses net income for both periods
when the current and the prior net income are both present, and otherwise
uses basic EPS for both periods; the two bases are never mixed within one
growth computation, and the 1y/5y table columns are exactly these
computations over the snapshot fields. -/
theorem C5_earnings_growth_basis (ni nip eps epsp : Option ℚ) :
    (ni.isSome = true → nip.isSome = true →
      earnings_growth ni nip eps epsp = growth ni nip) ∧
    (¬(ni.isSome = true ∧ nip.isSome = true) →
      earnings_growth ni nip eps epsp = growth eps epsp) ∧
    (∀ prices snapCur snap1y snap5y refDate s,
      (buildRow prices snapCur snap1y snap5y refDate s).earnGrowth1y =
        earnings_growth (snapLookup snapCur s.ticker "net_income")
          (snapLookup snap1y s.ticker "net_income")
          (snapLookup snapCur s.ticker "eps_basic")
          (snapLookup snap1y s.ticker "eps_basic") ∧
      (buildRow prices snapCur snap1y snap5y refDate s).earnGrowth5y =
        earnings_growth (snapLookup snapCur s.ticker "net_income")
          (snapLookup snap5y s.ticker "net_income")
          (snapLookup snapCur s.ticker "eps_basic")
          (snapLookup snap5y s.ticker "eps_basic")) := by
  refine ⟨fun h1 h2 => ?_, fun h => ?_, fun prices snapCur snap1y snap5y refDate s => ⟨rfl, rfl⟩⟩
  · simp [earnings_growth, h1, h2]
  · rw [earnings_growth, if_neg h]

/-- Claim C6 (UniverseResolver, modelled from the spec): a ticker is in the
resolved universe iff at least one of its membership intervals for the index
covers the as-of date (closed-or-open-ended upper bound), and each qualifying
ticker appears exactly once. -/
theorem C6_resolve_membership (ms : List IndexMembership) (idx : String) (d : Int) :
    (∀ t, t ∈ resolve ms idx d ↔ ∃ m ∈ ms, m.index_name = idx ∧ m.ticker = t ∧
      m.included_start ≤ d ∧
      (m.included_end = none ∨ ∃ e, m.included_end = some e ∧ d ≤ e)) ∧
    (resolve ms idx d).Nodup := by
  constructor
  · intro t
    simp only [resolve, List.mem_dedup, List.mem_map, List.mem_filter]
    constructor
    · rintro ⟨m, ⟨hm, hcond⟩, rfl⟩
      have := of_decide_eq_true hcond
      rcases this with ⟨hidx, hcov⟩
      exact ⟨m, hm, hidx, rfl, (coversDay_iff m d).mp hcov⟩
    · rintro ⟨m, hm, hidx, rfl, hcov⟩
      refine ⟨m, ⟨hm, decide_eq_true ?_⟩, rfl⟩
      exact ⟨hidx, (coversDay_iff m d).mpr hcov⟩
  · exact List.nodup_dedup _

/-- Membership in the cutoff filter. -/
theorem mem_recordsUpTo {df : List FundRecord} {cutoff : Int} {r : FundRecord} :
    r ∈ recordsUpTo df cutoff ↔ r ∈ df ∧ r.reported_date ≤ cutoff := by
  simp [recordsUpTo, List.mem_filter]

/-- Membership in the merged latest-date frame: the row is in the input and
its date is maximal among its ticker's rows. -/
theorem mem_latestRows {df : List FundRecord} {r : FundRecord} :
    r ∈ latestRows df ↔ r ∈ df ∧ ∀ s ∈ df, s.ticker = r.ticker →
      s.reported_date ≤ r.reported_date := by
  rw [latestRows, List.mem_filter]
  constructor
  · rintro ⟨hmem, hall⟩
    rw [isLatestFor, List.all_eq_true] at hall
    refine ⟨hmem, fun s hs hst => ?_⟩
    have := hall s (List.mem_filter.mpr ⟨hs, by simp [hst]⟩)
    simpa using this
  · rintro ⟨hmem, h⟩
    refine ⟨hmem, ?_⟩
    rw [isLatestFor, List.all_eq_true]
    intro s hs
    have hm := List.mem_filter.mp hs
    have hst : s.ticker = r.ticker := by simpa using hm.2
    simpa using h s hm.1 hst

/-- A successful pivot returns exactly the latest-date rows, whose
(ticker, field) keys are then duplicate-free. -/
theorem snapshot_at_eq_some {df : List FundRecord} {cutoff : Int}
    {snap : List FundRecord} (h : snapshot_at df cutoff = some snap) :
    snap = latestRows (recordsUpTo df cutoff) ∧
    (snapKeys (latestRows (recordsUpTo df cutoff))).Nodup := by
  simp only [snapshot_at] at h
  split at h
  next hn => exact ⟨(Option.some.inj h).symm, hn⟩
  next hn => exact absurd h (by simp)

/-- Claim C1: every value of a built snapshot comes from a record of the
input whose reported date is the maximum reported date at or before the
cutoff among its ticker's records, and a ticker with no record at or before
the cutoff has no row in the snapshot. -/
theorem C1_snapshot_from_latest_date (df : List FundRecord) (cutoff : Int)
    (snap : List FundRecord) (hs : snapshot_at df cutoff = some snap) :
    (∀ t f v, snapLookup snap t f = some v →
      ∃ r, r ∈ df ∧ r.ticker = t ∧ r.field = f ∧ r.value = v ∧
        r.reported_date ≤ cutoff ∧
        ∀ s ∈ df, s.ticker = t → s.reported_date ≤ cutoff →
          s.reported_date ≤ r.reported_date) ∧
    (∀ t, (∀ r ∈ df, r.ticker = t → ¬ r.reported_date ≤ cutoff) →
      ∀ r ∈ snap, r.ticker ≠ t) := by
  obtain ⟨hsnap, -⟩ := snapshot_at_eq_some hs
  subst hsnap
  constructor
  · intro t f v hv
    simp only [snapLookup, Option.map_eq_some'] at hv
    obtain ⟨r, hfind, hval⟩ := hv
    have hmem := List.mem_of_find?_eq_some hfind
    have hpred := List.find?_some hfind
    simp only [decide_eq_true_eq] at hpred
    obtain ⟨ht, hf⟩ := hpred
    rw [mem_latestRows] at hmem
    obtain ⟨hmem2, hmax⟩ := hmem
    rw [mem_recordsUpTo] at hmem2
    refine ⟨r, hmem2.1, ht, hf, hval, hmem2.2, ?_⟩
    intro s hsd hst hsc
    exact hmax s (mem_recordsUpTo.mpr ⟨hsd, hsc⟩) (by rw [hst, ht])
  · intro t hnone r hr hticker
    rw [mem_latestRows] at hr
    obtain ⟨hr2, -⟩ := hr
    rw [mem_recordsUpTo] at hr2
    exact hnone r hr2.1 hticker hr2.2

/-- Claim C1, witness: in `c1df` at cutoff 100 the snapshot value 7 for
(AAA, revenue) comes from the maximal qualifying record. -/
theorem C1_snapshot_from_latest_date_witness :
    ∃ r, r ∈ c1df ∧ r.ticker = "AAA" ∧ r.field = "revenue" ∧ r.value = 7 ∧
      r.reported_date ≤ 100 ∧
      ∀ s ∈ c1df, s.ticker = "AAA" → s.reported_date ≤ 100 →
        s.reported_date ≤ r.reported_date :=
  (C1_snapshot_from_latest_date c1df 100 c1snap (by decide)).1
    "AAA" "revenue" 7 (by decide)

/-- Claim C9 (amended): when two records with different values share a ticker,
a field, and the ticker's maximal reported date at or before the cutoff, the
pivot has duplicate index entries and the whole snapshot construction fails
(`DataFrame.pivot` raises), for every ticker at once; no deterministic
last-seen selection happens. -/
theorem C9_duplicate_key_aborts (df : List FundRecord) (cutoff : Int)
    (r s : FundRecord) (hr : r ∈ df) (hs : s ∈ df)
    (hrc : r.reported_date ≤ cutoff) (hsc : s.reported_date ≤ cutoff)
    (ht : r.ticker = s.ticker) (hf : r.field = s.field) (hv : r.value ≠ s.value)
    (hd : r.reported_date = s.reported_date)
    (hmax : ∀ u ∈ df, u.ticker = r.ticker → u.reported_date ≤ cutoff →
      u.reported_date ≤ r.reported_date) :
    snapshot_at df cutoff = none := by
  have hrmem : r ∈ latestRows (recordsUpTo df cutoff) := by
    rw [mem_latestRows]
    refine ⟨mem_recordsUpTo.mpr ⟨hr, hrc⟩, ?_⟩
    intro u hu hut
    rw [mem_recordsUpTo] at hu
    exact hmax u hu.1 hut hu.2
  have hsmem : s ∈ latestRows (recordsUpTo df cutoff) := by
    rw [mem_latestRows]
    refine ⟨mem_recordsUpTo.mpr ⟨hs, hsc⟩, ?_⟩
    intro u hu hut
    rw [mem_recordsUpTo] at hu
    have := hmax u hu.1 (by rw [hut, ← ht]) hu.2
    omega
  have hnodup : ¬ (snapKeys (latestRows (recordsUpTo df cutoff))).Nodup := by
    intro hn
    have heq : r = s :=
      List.inj_on_of_nodup_map hn hrmem hsmem (by simp [ht, hf])
    exact hv (by rw [heq])
  simp only [snapshot_at]
  rw [if_neg hnodup]

/-- Claim C9, witness: the duplicate AAA revenue rows of `c9df` make the
snapshot at cutoff 60 fail. -/
theorem C9_duplicate_key_aborts_witness : snapshot_at c9df 60 = none :=
  C9_duplicate_key_aborts c9df 60 ⟨"AAA", 50, "revenue", 1⟩ ⟨"AAA", 50, "revenue", 2⟩
    (by decide) (by decide) (by decide) (by decide) rfl rfl (by decide) rfl (by decide)

/-- Claim C9, counterexample: with duplicate (AAA, revenue) rows on the
shared maximal date, the snapshot at cutoff 100 is not built at all — no
value is selected and the unaffected ticker BBB gets no snapshot either. -/
theorem C9_counterexample :
    snapshot_at c9df 100 = none ∧ c9df.filter (fun r => r.ticker = "BBB") ≠ [] := by
  decide

/-- The pandas column mean is NaN exactly when no value is present. -/
theorem colMean_none_iff (xs : List (Option ℚ)) :
    colMean xs = none ↔ ∀ x ∈ xs, x = none := by
  have h1 : colMean xs = none ↔ (xs.filterMap id).isEmpty = true := by
    simp only [colMean]
    split
    next h => simp [h]
    next h => simp [h]
  rw [h1, List.isEmpty_iff, List.filterMap_eq_nil_iff]
  simp

/-- A present pandas column mean is the sum of present values over their
count. -/
theorem colMean_some (xs : List (Option ℚ)) (v : ℚ) (h : colMean xs = some v) :
    v = (xs.filterMap id).sum / (xs.filterMap id).length := by
  simp only [colMean] at h
  split at h
  next => exact absurd h (by simp)
  next => exact (Option.some.inj h).symm

/-- The displayed table has exactly one row per registry row, in order. -/
theorem buildMetrics_tickers (stocks : List StockRow) (funds : List FundRecord)
    (prices : List PriceObs) (refDate : Int) (rows : List MetricRow)
    (h : buildMetrics stocks funds prices refDate = some rows) :
    rows.map (fun r => r.ticker) = stocks.map (fun s => s.ticker) := by
  simp only [buildMetrics] at h
  split at h
  next =>
    obtain rfl := Option.some.inj h
    rw [List.map_map]
    rfl
  next => exact absurd h (by simp)

/-- Claim C7 (amended): the summary means over the table's 1Y-return and
net-margin columns average only the tickers where the column is present
(missing values excluded from numerator and divisor) and are undefined when
no ticker has a value; the table itself consists of exactly one row per
registry ticker — no synthetic average row is appended. -/
theorem C7_summary_mean (rows : List MetricRow) :
    (summary_avg_1y rows = none ↔ ∀ r ∈ rows, r.perf1Y = none) ∧
    (∀ v, summary_avg_1y rows = some v →
      v = ((rows.map (fun r => r.perf1Y)).filterMap id).sum /
          ((rows.map (fun r => r.perf1Y)).filterMap id).length) ∧
    (summary_avg_net_margin rows = none ↔ ∀ r ∈ rows, r.netMargin = none) ∧
    (∀ stocks funds prices refDate rows2,
      buildMetrics stocks funds prices refDate = some rows2 →
      rows2.map (fun r => r.ticker) = stocks.map (fun s => s.ticker)) := by
  refine ⟨?_, ?_, ?_, ?_⟩
  · rw [summary_avg_1y, colMean_none_iff]
    simp
  · intro v hv
    exact colMean_some _ v hv
  · rw [summary_avg_net_margin, colMean_none_iff]
    simp
  · intro stocks funds prices refDate rows2 h
    exact buildMetrics_tickers stocks funds prices refDate rows2 h

/-- Claim C7, counterexample: on a one-ticker universe the emitted table's
ticker column is exactly the registry's — it has no row labelled with the
sentinel, so no synthetic index-average row is part of the table. -/
theorem C7_counterexample :
    (buildMetrics c7stocks c7funds c7prices 1000).map
      (fun rows => rows.map (fun r => r.ticker)) = some ["AAA"] ∧
    "Index Average" ∉ (["AAA"] : List String) := by
  constructor
  · rfl
  · decide

/-- The last element of a pairwise-ordered list is related to every other
element. -/
theorem getLast?_spec {α : Type} {R : α → α → Prop} :
    ∀ (l : List α) (r : α), l.getLast? = some r → l.Pairwise R →
      r ∈ l ∧ ∀ x ∈ l, x = r ∨ R x r := by
  intro l
  induction l with
  | nil => intro r h _; simp at h
  | cons a l2 ih =>
    intro r h hp
    cases l2 with
    | nil =>
      have ha : a = r := by simpa using h
      subst ha
      refine ⟨List.mem_singleton_self a, ?_⟩
      intro x hx
      have : x = a := by simpa using hx
      exact Or.inl this
    | cons b l3 =>
      rw [List.getLast?_cons_cons] at h
      obtain ⟨ha, hbl⟩ := List.pairwise_cons.mp hp
      obtain ⟨hmem, hmax⟩ := ih r h hbl
      refine ⟨List.mem_cons_of_mem a hmem, ?_⟩
      intro x hx
      rcases List.mem_cons.mp hx with hxa | hx2
      · exact Or.inr (hxa ▸ ha r hmem)
      · exact hmax x hx2

/-- A successful point-in-time price lookup returns a qualifying observation
of maximal date. -/
theorem get_price_some_spec (df : List PriceObs) (t : String) (target : Int)
    (c : ℚ) (d : Int) (h : get_price_on_or_before df t target = some (c, d)) :
    ∃ r, r ∈ df ∧ r.ticker = t ∧ r.dt ≤ target ∧ r.close = c ∧ r.dt = d ∧
      ∀ s ∈ df, s.ticker = t → s.dt ≤ target → s.dt ≤ r.dt := by
  simp only [get_price_on_or_before] at h
  rw [Option.map_eq_some'] at h
  obtain ⟨r, hlast, hrd⟩ := h
  have hc : r.close = c := congrArg Prod.fst hrd
  have hd : r.dt = d := congrArg Prod.snd hrd
  have hpair :
      ((List.insertionSort dtLe (df.filter (fun x => x.ticker = t))).filter
        (fun x => x.dt ≤ target)).Pairwise dtLe :=
    List.Pairwise.sublist (List.filter_sublist _)
      (List.sorted_insertionSort dtLe _)
  obtain ⟨hmem, hmax⟩ := getLast?_spec _ r hlast hpair
  have h1 := List.mem_filter.mp hmem
  have h2 := (List.mem_insertionSort dtLe).mp h1.1
  have h3 := List.mem_filter.mp h2
  refine ⟨r, h3.1, of_decide_eq_true h3.2, of_decide_eq_true h1.2, hc, hd, ?_⟩
  intro s hs hst hsl
  have hmem2 :
      s ∈ (List.insertionSort dtLe (df.filter (fun x => x.ticker = t))).filter
        (fun x => x.dt ≤ target) :=
    List.mem_filter.mpr
      ⟨(List.mem_insertionSort dtLe).mpr (List.mem_filter.mpr ⟨hs, decide_eq_true hst⟩),
        decide_eq_true hsl⟩
  rcases hmax s hmem2 with heq | hR
  · exact le_of_eq (congrArg PriceObs.dt heq)
  · exact hR

/-- The point-in-time price lookup fails exactly when no observation of the
ticker is dated at or before the target. -/
theorem get_price_none_iff (df : List PriceObs) (t : String) (target : Int) :
    get_price_on_or_before df t target = none ↔
      ∀ r ∈ df, r.ticker = t → ¬ r.dt ≤ target := by
  simp only [get_price_on_or_before, Option.map_eq_none', List.getLast?_eq_none_iff,
    List.filter_eq_nil_iff, List.mem_insertionSort, List.mem_filter, decide_eq_true_eq]
  constructor
  · intro h r hr ht
    exact h r ⟨hr, ht⟩
  · rintro h r ⟨hr, ht⟩
    exact h r hr ht

/-- Claim C2: the point-in-time price lookup returns the close of the
maximum-dated observation at or before the target, returns NaN exactly when
no observation qualifies, and is invariant under permutation of the input
rows (dates being unique per ticker, as one row per trading date). -/
theorem C2_price_lookup (df : List PriceObs) (t : String) (target : Int)
    (huniq : ∀ r ∈ df, ∀ s ∈ df, r.ticker = t → s.ticker = t → r.dt = s.dt → r = s) :
    (∀ c d, get_price_on_or_before df t target = some (c, d) →
      ∃ r, r ∈ df ∧ r.ticker = t ∧ r.dt ≤ target ∧ r.close = c ∧ r.dt = d ∧
        ∀ s ∈ df, s.ticker = t → s.dt ≤ target → s.dt ≤ r.dt) ∧
    (get_price_on_or_before df t target = none ↔
      ∀ r ∈ df, r.ticker = t → ¬ r.dt ≤ target) ∧
    (∀ df2, df.Perm df2 →
      get_price_on_or_before df2 t target = get_price_on_or_before df t target) := by
  refine ⟨fun c d h => get_price_some_spec df t target c d h,
    get_price_none_iff df t target, ?_⟩
  intro df2 hperm
  cases h : get_price_on_or_before df t target with
  | none =>
    rw [get_price_none_iff] at h ⊢
    intro r hr
    exact h r (hperm.mem_iff.mpr hr)
  | some cd =>
    obtain ⟨c, d⟩ := cd
    obtain ⟨r, hr, hrt, hrl, hrc, hrd, hrmax⟩ := get_price_some_spec df t target c d h
    cases h2 : get_price_on_or_before df2 t target with
    | none =>
      rw [get_price_none_iff] at h2
      exact absurd hrl (h2 r (hperm.mem_iff.mp hr) hrt)
    | some cd2 =>
      obtain ⟨c2, d2⟩ := cd2
      obtain ⟨r2, hr2, hrt2, hrl2, hrc2, hrd2, hrmax2⟩ :=
        get_price_some_spec df2 t target c2 d2 h2
      have hr2df : r2 ∈ df := hperm.mem_iff.mpr hr2
      have h12 : r2.dt ≤ r.dt := hrmax r2 hr2df hrt2 hrl2
      have h21 : r.dt ≤ r2.dt := hrmax2 r (hperm.mem_iff.mp hr) hrt hrl
      have heq : r = r2 := huniq r hr r2 hr2df hrt hrt2 (le_antisymm h21 h12)
      subst heq
      rw [← hrc, ← hrd, hrc2, hrd2]

/-- Claim C2, witness: on the concrete price sample the failure
characterization holds at target 18. -/
theorem C2_price_lookup_witness :
    get_price_on_or_before c2prices "X" 18 = none ↔
      ∀ r ∈ c2prices, r.ticker = "X" → ¬ r.dt ≤ 18 :=
  (C2_price_lookup c2prices "X" 18 (by decide)).2.1

/-- Claim C3 (amended): the table carries a price return column per lookback
window in 30, 90, 182, 365 and 1825 days (there is no 3-year window), each
equal to `(price_at(ref) / price_at(ref - W) - 1) * 100` (a percentage, not a
raw fraction), and NaN whenever either endpoint lookup fails. -/
theorem C3_perf_columns (prices : List PriceObs) (t : String) (base days : Int)
    (bp : ℚ) (bd : Int) (tp : ℚ) (td : Int)
    (hb : get_price_on_or_before prices t base = some (bp, bd))
    (ht : get_price_on_or_before prices t (base - days) = some (tp, td)) :
    pct_change_from prices t base days = some ((bp / tp - 1) * 100) ∧
    (∀ t2 b2 d2, pct_change_from prices t2 b2 d2 = none ↔
      (get_price_on_or_before prices t2 b2 = none ∨
        get_price_on_or_before prices t2 (b2 - d2) = none)) ∧
    perf_cols.map Prod.snd = [30, 90, 182, 365, 1825] ∧
    (∀ snapCur snap1y snap5y s,
      (buildRow prices snapCur snap1y snap5y base s).perf1M =
        pct_change_from prices s.ticker base 30 ∧
      (buildRow prices snapCur snap1y snap5y base s).perf3M =
        pct_change_from prices s.ticker base 90 ∧
      (buildRow prices snapCur snap1y snap5y base s).perf6M =
        pct_change_from prices s.ticker base 182 ∧
      (buildRow prices snapCur snap1y snap5y base s).perf1Y =
        pct_change_from prices s.ticker base 365 ∧
      (buildRow prices snapCur snap1y snap5y base s).perf5Y =
        pct_change_from prices s.ticker base 1825) := by
  refine ⟨?_, ?_, by norm_num [perf_cols], ?_⟩
  · simp only [pct_change_from, hb, ht]
  · intro t2 b2 d2
    cases hb2 : get_price_on_or_before prices t2 b2 with
    | none => simp [pct_change_from, hb2]
    | some v =>
      cases ht2 : get_price_on_or_before prices t2 (b2 - d2) with
      | none => simp [pct_change_from, hb2, ht2]
      | some w => simp [pct_change_from, hb2, ht2]
  · intro snapCur snap1y snap5y s
    have h5 : (365 * 5 : Int) = 1825 := by norm_num
    exact ⟨rfl, rfl, rfl, rfl, by rw [← h5]; rfl⟩

/-- Claim C3, witness: reference day 365, lookback 365 on the concrete price
sample gives the percentage return of 60 over 50. -/
theorem C3_perf_columns_witness :
    pct_change_from c3prices "X" 365 365 = some ((60 / 50 - 1) * 100) :=
  (C3_perf_columns c3prices "X" 365 365 60 365 50 0 rfl rfl).1

/-- Claim C3, counterexample: the computed 1-year return is 20 (percent), not
the raw fraction 1/5, and the window dictionary has no 1095-day (3-year)
entry. -/
theorem C3_counterexample :
    pct_change_from c3prices "X" 365 365 = some 20 ∧ ((20 : ℚ) ≠ 60 / 50 - 1) ∧
    (1095 : Int) ∉ perf_cols.map Prod.snd := by
  refine ⟨?_, by norm_num, by decide⟩
  have hb : get_price_on_or_before c3prices "X" 365 = some ((60 : ℚ), (365 : Int)) := rfl
  have ht : get_price_on_or_before c3prices "X" (365 - 365) =
      some ((50 : ℚ), (0 : Int)) := rfl
  simp only [pct_change_from, hb, ht]
  norm_num
